import Mathlib

/-!
# Jenkins credential resource handlers

A shallow embedding of the two Terraform resource handlers of the repository,
`src/resource_jenkins_credential.go` (username/password credentials) and
`src/resource_jenkins_credential_string.go` (secret-string credentials).

Conventions of the embedding:

* A Go `error` is a value of `GoError`; a nil-able error result is `Option GoError`
  (`none` is Go's `nil`).
* `*schema.ResourceData` is a record holding the identifier slot and the attributes
  declared in the resource's schema; `d.Get("k").(string)` is the projection `d.k`,
  `d.Id()` is `d.Id`, `d.SetId(v)` is `d.SetId v`.
* `meta.(*jenkins.Jenkins)` wrapped in `jenkins.CredentialsManager` is an external
  collaborator. Every handler takes it as a parameter `cm : CredentialsManager σ`,
  whose four methods thread the state `σ` of the remote side explicitly.
* `uuid.NewV4()` is an external collaborator too; the pair it returns is the
  parameter `newV4 : UUID × Option GoError` of the two Create handlers.
* `log.Printf` calls only write to the process log; they read values already
  bound and touch neither the resource data nor the store, and are left out.
-/

namespace Jenkins

/-- Go's `error` interface value, identified by its message. -/
structure GoError where
  msg : String
  deriving DecidableEq

/-! ## The identifier generator (`github.com/gofrs/uuid`) -/

/-- Go's `uuid.UUID`, declared as `[16]byte`. -/
structure UUID where
  bytes : Fin 16 → Fin 256

/-- Go's `uuid.Nil`, the all-zero UUID; it is the value `uuid.NewV4` returns
together with a non-nil error. -/
def UUID.Nil : UUID := ⟨fun _ => 0⟩

/-- One lower-case hexadecimal digit, as in Go's `encoding/hex`. -/
def hexDigit (n : Nat) : Char :=
  if n < 10 then Char.ofNat (48 + n) else Char.ofNat (87 + n)

/-- Go's `hex.Encode` on one byte: high nibble, then low nibble. -/
def hexByte (b : Fin 256) : List Char :=
  [hexDigit (b.val / 16), hexDigit (b.val % 16)]

/-- Go's `hex.Encode(dst, u[lo:lo+n])`, the hexadecimal form of `n` bytes from `lo`. -/
def UUID.hex (u : UUID) (lo n : Nat) : List Char :=
  ((List.finRange 16).filter (fun i => decide (lo ≤ i.val ∧ i.val < lo + n))).flatMap
    (fun i => hexByte (u.bytes i))

/-- The `String` method of `uuid.UUID`: the canonical 8-4-4-4-12 hexadecimal form
`xxxxxxxx-xxxx-xxxx-xxxx-xxxxxxxxxxxx`. -/
def UUID.String (u : UUID) : String :=
  String.mk (u.hex 0 4 ++ [Char.ofNat 45] ++ u.hex 4 2 ++ [Char.ofNat 45] ++ u.hex 6 2
    ++ [Char.ofNat 45] ++ u.hex 8 2 ++ [Char.ofNat 45] ++ u.hex 10 6)

/-! ## Credential payloads (`github.com/bndr/gojenkins`) -/

/-- The request struct `jenkins.UsernameCredentials`; a field left out of a Go
composite literal holds the zero value `""`. -/
structure UsernameCredentials where
  ID : String := ""
  Scope : String := ""
  Username : String := ""
  Password : String := ""
  Description : String := ""
  deriving DecidableEq

/-- The request struct `jenkins.StringCredentials`. -/
structure StringCredentials where
  ID : String := ""
  Scope : String := ""
  Secret : String := ""
  Description : String := ""
  deriving DecidableEq

/-- The `interface{}` argument of the store calls: one of the two payload shapes. -/
inductive Creds where
  | username (c : UsernameCredentials)
  | string (c : StringCredentials)
  deriving DecidableEq

/-- The identifier carried by a payload. -/
def Creds.ID : Creds → String
  | .username c => c.ID
  | .string c => c.ID

/-- The methods of `jenkins.CredentialsManager` the handlers call, over a remote
side whose state has type `σ`. `GetSingle` receives the caller's struct and
returns, next to the error, the struct as the call left it. -/
structure CredentialsManager (σ : Type) where
  Add : String → Creds → σ → Option GoError × σ
  GetSingle : String → String → Creds → σ → (Option GoError × Creds) × σ
  Update : String → String → Creds → σ → Option GoError × σ
  Delete : String → String → σ → Option GoError × σ

/-! ## Resource data of the two schemas -/

/-- The `schema.ResourceData` of `resourceJenkinsCredential`: the identifier and
the six attributes of its schema. -/
structure CredentialResourceData where
  Id : String
  username : String
  password : String
  description : String
  template : String
  parameters : List (String × String)
  hash : String
  deriving DecidableEq

/-- The `schema.ResourceData` of `resourceJenkinsCredentialSecret`: the identifier
and the two attributes of its schema. -/
structure CredentialSecretResourceData where
  Id : String
  secret : String
  description : String
  deriving DecidableEq

/-- The call `d.SetId(v)`. -/
def CredentialResourceData.SetId (d : CredentialResourceData) (v : String) :
    CredentialResourceData :=
  { d with Id := v }

/-- The call `d.Set("username", v)`. -/
def CredentialResourceData.SetUsername (d : CredentialResourceData) (v : String) :
    CredentialResourceData :=
  { d with username := v }

/-- The call `d.SetId(v)`. -/
def CredentialSecretResourceData.SetId (d : CredentialSecretResourceData) (v : String) :
    CredentialSecretResourceData :=
  { d with Id := v }

/-! ## Handlers of `resource_jenkins_credential.go` -/

/-- The handler `resourceJenkinsCredentialExists`: result `(b, e)`, resource data and
remote state after the call. -/
def resourceJenkinsCredentialExists {σ : Type} (cm : CredentialsManager σ)
    (d : CredentialResourceData) (s : σ) :
    (Bool × Option GoError) × CredentialResourceData × σ :=
  let username := d.username
  let domain := "_"
  let scope := "GLOBAL"
  let id := d.Id
  let creds : UsernameCredentials := { ID := id, Scope := scope, Username := username }
  match cm.GetSingle domain id (Creds.username creds) s with
  | ((some _, _), s1) => ((false, none), d.SetId "", s1)
  | ((none, _), s1) => ((true, none), d, s1)

/-- The handler `resourceJenkinsCredentialCreate`; `newV4` is what `uuid.NewV4()`
returned, whose error component the handler drops. -/
def resourceJenkinsCredentialCreate {σ : Type} (cm : CredentialsManager σ)
    (newV4 : UUID × Option GoError) (d : CredentialResourceData) (s : σ) :
    Option GoError × CredentialResourceData × σ :=
  let username := d.username
  let password := d.password
  let description := d.description
  let domain := "_"
  let scope := "GLOBAL"
  let tmpID := newV4.1
  let id := tmpID.String
  let creds : UsernameCredentials :=
    { ID := id, Scope := scope, Username := username, Password := password,
      Description := description }
  match cm.Add domain (Creds.username creds) s with
  | (some err, s1) => (some err, d, s1)
  | (none, s1) => (none, (d.SetId id).SetUsername username, s1)

/-- The handler `resourceJenkinsCredentialRead`. -/
def resourceJenkinsCredentialRead {σ : Type} (cm : CredentialsManager σ)
    (d : CredentialResourceData) (s : σ) :
    Option GoError × CredentialResourceData × σ :=
  let username := d.username
  let domain := "_"
  let scope := "GLOBAL"
  let id := d.Id
  let creds : UsernameCredentials := { ID := id, Scope := scope, Username := username }
  match cm.GetSingle domain id (Creds.username creds) s with
  | ((some err, _), s1) => (some err, d, s1)
  | ((none, _), s1) => (none, d.SetId id, s1)

/-- The handler `resourceJenkinsCredentialUpdate`. -/
def resourceJenkinsCredentialUpdate {σ : Type} (cm : CredentialsManager σ)
    (d : CredentialResourceData) (s : σ) :
    Option GoError × CredentialResourceData × σ :=
  let username := d.username
  let password := d.password
  let description := d.description
  let domain := "_"
  let scope := "GLOBAL"
  let id := d.Id
  let creds : UsernameCredentials :=
    { ID := id, Scope := scope, Username := username, Password := password,
      Description := description }
  match cm.Update domain id (Creds.username creds) s with
  | (some err, s1) => (some err, d, s1)
  | (none, s1) => (none, d.SetId id, s1)

/-- The handler `resourceJenkinsCredentialDelete`. -/
def resourceJenkinsCredentialDelete {σ : Type} (cm : CredentialsManager σ)
    (d : CredentialResourceData) (s : σ) :
    Option GoError × CredentialResourceData × σ :=
  let id := d.Id
  let domain := "_"
  match cm.Delete domain id s with
  | (err, s1) => (err, d.SetId "", s1)

/-! ## Handlers of `resource_jenkins_credential_string.go` -/

/-- The handler `resourceJenkinsCredentialSecretExists`. -/
def resourceJenkinsCredentialSecretExists {σ : Type} (cm : CredentialsManager σ)
    (d : CredentialSecretResourceData) (s : σ) :
    (Bool × Option GoError) × CredentialSecretResourceData × σ :=
  let secret := d.secret
  let description := d.description
  let domain := "_"
  let scope := "GLOBAL"
  let id := d.Id
  let creds : StringCredentials :=
    { ID := id, Scope := scope, Secret := secret, Description := description }
  match cm.GetSingle domain id (Creds.string creds) s with
  | ((some _, _), s1) => ((false, none), d.SetId "", s1)
  | ((none, _), s1) => ((true, none), d, s1)

/-- The handler `resourceJenkinsCredentialSecretCreate`; `newV4` is what
`uuid.NewV4()` returned, whose error component the handler drops. -/
def resourceJenkinsCredentialSecretCreate {σ : Type} (cm : CredentialsManager σ)
    (newV4 : UUID × Option GoError) (d : CredentialSecretResourceData) (s : σ) :
    Option GoError × CredentialSecretResourceData × σ :=
  let secret := d.secret
  let description := d.description
  let domain := "_"
  let scope := "GLOBAL"
  let tmpID := newV4.1
  let id := tmpID.String
  let creds : StringCredentials :=
    { ID := id, Scope := scope, Secret := secret, Description := description }
  match cm.Add domain (Creds.string creds) s with
  | (some err, s1) => (some err, d, s1)
  | (none, s1) => (none, d.SetId id, s1)

/-- The handler `resourceJenkinsCredentialSecretRead`. -/
def resourceJenkinsCredentialSecretRead {σ : Type} (cm : CredentialsManager σ)
    (d : CredentialSecretResourceData) (s : σ) :
    Option GoError × CredentialSecretResourceData × σ :=
  let secret := d.secret
  let description := d.description
  let domain := "_"
  let scope := "GLOBAL"
  let id := d.Id
  let creds : StringCredentials :=
    { ID := id, Scope := scope, Secret := secret, Description := description }
  match cm.GetSingle domain id (Creds.string creds) s with
  | ((some err, _), s1) => (some err, d, s1)
  | ((none, _), s1) => (none, d.SetId id, s1)

/-- The handler `resourceJenkinsCredentialSecretUpdate`. -/
def resourceJenkinsCredentialSecretUpdate {σ : Type} (cm : CredentialsManager σ)
    (d : CredentialSecretResourceData) (s : σ) :
    Option GoError × CredentialSecretResourceData × σ :=
  let secret := d.secret
  let description := d.description
  let domain := "_"
  let scope := "GLOBAL"
  let id := d.Id
  let creds : StringCredentials :=
    { ID := id, Scope := scope, Secret := secret, Description := description }
  match cm.Update domain id (Creds.string creds) s with
  | (some err, s1) => (some err, d, s1)
  | (none, s1) => (none, d.SetId id, s1)

/-- The handler `resourceJenkinsCredentialSecretDelete`. -/
def resourceJenkinsCredentialSecretDelete {σ : Type} (cm : CredentialsManager σ)
    (d : CredentialSecretResourceData) (s : σ) :
    Option GoError × CredentialSecretResourceData × σ :=
  let id := d.Id
  let domain := "_"
  match cm.Delete domain id s with
  | (err, s1) => (err, d.SetId "", s1)

/-! ## A manager that records the calls made on it -/

/-- One call on the credentials manager, with its arguments. -/
inductive Call where
  | Add (domain : String) (creds : Creds)
  | GetSingle (domain id : String) (creds : Creds)
  | Update (domain id : String) (creds : Creds)
  | Delete (domain id : String)
  deriving DecidableEq

/-- A credentials manager whose state is the list of calls made so far, oldest
first. What each call answers is arbitrary: `outcome` gives the error result of a
call from the history before it, `fetched` the struct a `GetSingle` leaves behind. -/
def recordingManager (outcome : List Call → Call → Option GoError)
    (fetched : List Call → Call → Creds) : CredentialsManager (List Call) where
  Add domain creds log :=
    (outcome log (Call.Add domain creds), log ++ [Call.Add domain creds])
  GetSingle domain id creds log :=
    ((outcome log (Call.GetSingle domain id creds), fetched log (Call.GetSingle domain id creds)),
      log ++ [Call.GetSingle domain id creds])
  Update domain id creds log :=
    (outcome log (Call.Update domain id creds), log ++ [Call.Update domain id creds])
  Delete domain id log :=
    (outcome log (Call.Delete domain id), log ++ [Call.Delete domain id])

/-! ## A keyed store -/

/-- Modelled from the spec: the state of the credential store of §6 (the Jenkins
server behind the gojenkins client, which is not part of the sources), as the
records it holds, each under its key (domain, id), newest first. -/
abbrev Store := List (String × String × Creds)

/-- Modelled from the spec: whether a stored entry sits under the key (domain, id). -/
def Store.hasKey (domain id : String) (r : String × String × Creds) : Bool :=
  r.1 == domain && r.2.1 == id

/-- Modelled from the spec: the record the store holds under (domain, id), if any. -/
def Store.lookup (s : Store) (domain id : String) : Option Creds :=
  (s.find? (Store.hasKey domain id)).map (fun r => r.2.2)

/-- Modelled from the spec: the error the store client reports for a key that
holds no record. -/
def notFound : GoError := ⟨"404 Not Found"⟩

/-- Modelled from the spec: the credential store client of §6 over `Store`
(`add`, `getSingle`, `update`, `delete`; the client library is not part of the
sources). `Add` inserts the record under (domain, its own ID); `GetSingle` succeeds
exactly when a record is held under the key and then hands that record back;
`Update` replaces the record held under the key with the given payload; `Delete`
removes it; the last three report `notFound`, changing nothing, for a key that
holds no record. -/
def storeManager : CredentialsManager Store where
  Add domain creds s := (none, (domain, creds.ID, creds) :: s)
  GetSingle domain id creds s :=
    match s.lookup domain id with
    | some c => ((none, c), s)
    | none => ((some notFound, creds), s)
  Update domain id creds s :=
    match s.lookup domain id with
    | some _ => (none, s.map (fun r => if Store.hasKey domain id r then (domain, id, creds) else r))
    | none => (some notFound, s)
  Delete domain id s :=
    match s.lookup domain id with
    | some _ => (none, s.filter (fun r => !Store.hasKey domain id r))
    | none => (some notFound, s)

/-- Modelled from the spec: the store client of `storeManager` during an outage of
its delete operation (§7, a store-call failure): `Delete` reports `failure` and
removes nothing. -/
def storeManagerDeleteFailing (failure : GoError) : CredentialsManager Store :=
  { storeManager with Delete := fun _ _ s => (some failure, s) }

/-! ## Sample inputs -/

/-- A version-4 UUID as a successful `uuid.NewV4()` may return it: bytes
`00 11 22 33 44 55 46 77 88 99 aa bb cc dd ee ff` (version nibble 4, variant bits 10). -/
def sampleUUID : UUID :=
  ⟨fun i => if i.val = 6 then 70 else ⟨i.val * 17 % 256, by omega⟩⟩

/-- The error `uuid.NewV4()` reports when the random source cannot be read. -/
def randFailure : GoError := ⟨"unexpected EOF"⟩

/-- Declared username/password resource data of a resource not yet created. -/
def aliceData : CredentialResourceData :=
  { Id := "", username := "alice", password := "p1", description := "ci user",
    template := "", parameters := [], hash := "" }

/-- Declared secret resource data of a resource not yet created. -/
def tokenData : CredentialSecretResourceData :=
  { Id := "", secret := "s3cr3t", description := "api token" }

/-- An arbitrary error of a store call. -/
def storeFailure : GoError := ⟨"connection refused"⟩

/-- Resource data of a username/password credential created earlier under `"u1"`. -/
def aliceCreated : CredentialResourceData := { aliceData with Id := "u1" }

/-- Resource data of a secret credential created earlier under `"t1"`. -/
def tokenCreated : CredentialSecretResourceData := { tokenData with Id := "t1" }

/-- A keyed store holding the records of `aliceCreated` and `tokenCreated`. -/
def sampleStore : Store :=
  [("_", "u1", Creds.username { ID := "u1", Scope := "GLOBAL", Username := "alice",
                                Password := "p1", Description := "ci user" }),
   ("_", "t1", Creds.string { ID := "t1", Scope := "GLOBAL", Secret := "s3cr3t",
                              Description := "api token" })]

/-! ## Theorems -/

/-- Unfolding of `resourceJenkinsCredentialExists` by the outcome of its lookup. -/
theorem credentialExists_eq {σ : Type} (cm : CredentialsManager σ) (d : CredentialResourceData)
    (s : σ) :
    resourceJenkinsCredentialExists cm d s =
      (((cm.GetSingle "_" d.Id
          (Creds.username { ID := d.Id, Scope := "GLOBAL", Username := d.username }) s).1.1.isNone,
        none),
       (if (cm.GetSingle "_" d.Id
          (Creds.username { ID := d.Id, Scope := "GLOBAL", Username := d.username }) s).1.1.isNone
        then d else d.SetId ""),
       (cm.GetSingle "_" d.Id
          (Creds.username { ID := d.Id, Scope := "GLOBAL", Username := d.username }) s).2) := by
  unfold resourceJenkinsCredentialExists
  dsimp only
  split <;> next h => (rw [h]; rfl)

/-- Unfolding of `resourceJenkinsCredentialSecretExists` by the outcome of its lookup. -/
theorem credentialSecretExists_eq {σ : Type} (cm : CredentialsManager σ)
    (d : CredentialSecretResourceData) (s : σ) :
    resourceJenkinsCredentialSecretExists cm d s =
      (((cm.GetSingle "_" d.Id
          (Creds.string { ID := d.Id, Scope := "GLOBAL", Secret := d.secret,
                          Description := d.description }) s).1.1.isNone,
        none),
       (if (cm.GetSingle "_" d.Id
          (Creds.string { ID := d.Id, Scope := "GLOBAL", Secret := d.secret,
                          Description := d.description }) s).1.1.isNone
        then d else d.SetId ""),
       (cm.GetSingle "_" d.Id
          (Creds.string { ID := d.Id, Scope := "GLOBAL", Secret := d.secret,
                          Description := d.description }) s).2) := by
  unfold resourceJenkinsCredentialSecretExists
  dsimp only
  split <;> next h => (rw [h]; rfl)

/-- Unfolding of `resourceJenkinsCredentialRead`: the lookup result is returned and
the resource data is unchanged. -/
theorem credentialRead_eq {σ : Type} (cm : CredentialsManager σ) (d : CredentialResourceData)
    (s : σ) :
    resourceJenkinsCredentialRead cm d s =
      ((cm.GetSingle "_" d.Id
          (Creds.username { ID := d.Id, Scope := "GLOBAL", Username := d.username }) s).1.1,
       d,
       (cm.GetSingle "_" d.Id
          (Creds.username { ID := d.Id, Scope := "GLOBAL", Username := d.username }) s).2) := by
  unfold resourceJenkinsCredentialRead
  dsimp only
  split <;> next h => (rw [h]; first | done | rfl)

/-- Unfolding of `resourceJenkinsCredentialSecretRead`. -/
theorem credentialSecretRead_eq {σ : Type} (cm : CredentialsManager σ)
    (d : CredentialSecretResourceData) (s : σ) :
    resourceJenkinsCredentialSecretRead cm d s =
      ((cm.GetSingle "_" d.Id
          (Creds.string { ID := d.Id, Scope := "GLOBAL", Secret := d.secret,
                          Description := d.description }) s).1.1,
       d,
       (cm.GetSingle "_" d.Id
          (Creds.string { ID := d.Id, Scope := "GLOBAL", Secret := d.secret,
                          Description := d.description }) s).2) := by
  unfold resourceJenkinsCredentialSecretRead
  dsimp only
  split <;> next h => (rw [h]; first | done | rfl)

/-- Unfolding of `resourceJenkinsCredentialUpdate`: the result of the store call is
returned and the resource data is unchanged. -/
theorem credentialUpdate_eq {σ : Type} (cm : CredentialsManager σ) (d : CredentialResourceData)
    (s : σ) :
    resourceJenkinsCredentialUpdate cm d s =
      ((cm.Update "_" d.Id
          (Creds.username { ID := d.Id, Scope := "GLOBAL", Username := d.username,
                            Password := d.password, Description := d.description }) s).1,
       d,
       (cm.Update "_" d.Id
          (Creds.username { ID := d.Id, Scope := "GLOBAL", Username := d.username,
                            Password := d.password, Description := d.description }) s).2) := by
  unfold resourceJenkinsCredentialUpdate
  dsimp only
  split <;> next h => (rw [h]; first | done | rfl)

/-- Unfolding of `resourceJenkinsCredentialSecretUpdate`. -/
theorem credentialSecretUpdate_eq {σ : Type} (cm : CredentialsManager σ)
    (d : CredentialSecretResourceData) (s : σ) :
    resourceJenkinsCredentialSecretUpdate cm d s =
      ((cm.Update "_" d.Id
          (Creds.string { ID := d.Id, Scope := "GLOBAL", Secret := d.secret,
                          Description := d.description }) s).1,
       d,
       (cm.Update "_" d.Id
          (Creds.string { ID := d.Id, Scope := "GLOBAL", Secret := d.secret,
                          Description := d.description }) s).2) := by
  unfold resourceJenkinsCredentialSecretUpdate
  dsimp only
  split <;> next h => (rw [h]; first | done | rfl)

/-- Unfolding of `resourceJenkinsCredentialCreate` by the outcome of the add call. -/
theorem credentialCreate_eq {σ : Type} (cm : CredentialsManager σ) (newV4 : UUID × Option GoError)
    (d : CredentialResourceData) (s : σ) :
    resourceJenkinsCredentialCreate cm newV4 d s =
      ((cm.Add "_"
          (Creds.username { ID := newV4.1.String, Scope := "GLOBAL", Username := d.username,
                            Password := d.password, Description := d.description }) s).1,
       (if (cm.Add "_"
          (Creds.username { ID := newV4.1.String, Scope := "GLOBAL", Username := d.username,
                            Password := d.password, Description := d.description }) s).1.isNone
        then d.SetId newV4.1.String else d),
       (cm.Add "_"
          (Creds.username { ID := newV4.1.String, Scope := "GLOBAL", Username := d.username,
                            Password := d.password, Description := d.description }) s).2) := by
  unfold resourceJenkinsCredentialCreate
  dsimp only
  split <;> next h => (rw [h]; rfl)

/-- Unfolding of `resourceJenkinsCredentialSecretCreate` by the outcome of the add call. -/
theorem credentialSecretCreate_eq {σ : Type} (cm : CredentialsManager σ)
    (newV4 : UUID × Option GoError) (d : CredentialSecretResourceData) (s : σ) :
    resourceJenkinsCredentialSecretCreate cm newV4 d s =
      ((cm.Add "_"
          (Creds.string { ID := newV4.1.String, Scope := "GLOBAL", Secret := d.secret,
                          Description := d.description }) s).1,
       (if (cm.Add "_"
          (Creds.string { ID := newV4.1.String, Scope := "GLOBAL", Secret := d.secret,
                          Description := d.description }) s).1.isNone
        then d.SetId newV4.1.String else d),
       (cm.Add "_"
          (Creds.string { ID := newV4.1.String, Scope := "GLOBAL", Secret := d.secret,
                          Description := d.description }) s).2) := by
  unfold resourceJenkinsCredentialSecretCreate
  dsimp only
  split <;> next h => (rw [h]; rfl)

/-! ### The keyed store -/

/-- A record just put in front of the store is the one found under its key. -/
theorem Store.lookup_cons_self (s : Store) (domain id : String) (c : Creds) :
    Store.lookup ((domain, id, c) :: s) domain id = some c := by
  simp [Store.lookup, Store.hasKey, List.find?_cons]

/-- The key test holds at the key itself. -/
theorem Store.hasKey_self (domain id : String) (c : Creds) :
    Store.hasKey domain id (domain, id, c) = true := by
  simp [Store.hasKey]

/-- Replacing what is held under a key does not move any entry to another key. -/
theorem Store.hasKey_replace (domain id : String) (c : Creds) (r : String × String × Creds) :
    Store.hasKey domain id (if Store.hasKey domain id r then (domain, id, c) else r)
      = Store.hasKey domain id r := by
  by_cases h : Store.hasKey domain id r = true
  · rw [if_pos h, h, Store.hasKey_self]
  · rw [if_neg h]

/-- After replacing what is held under a key, the key holds the new payload exactly
when it held a record before. -/
theorem Store.lookup_map_replace (s : Store) (domain id : String) (c : Creds) :
    Store.lookup (s.map (fun r => if Store.hasKey domain id r then (domain, id, c) else r))
        domain id
      = (Store.lookup s domain id).map (fun _ => c) := by
  induction s with
  | nil => rfl
  | cons r s ih =>
    simp only [Store.lookup, List.map_cons, List.find?_cons] at ih ⊢
    rw [Store.hasKey_replace]
    by_cases h : Store.hasKey domain id r = true
    · simp only [h, if_true, Option.map_some']
    · have h0 : Store.hasKey domain id r = false := by simpa using h
      simp only [h0]
      exact ih

/-- Replacing what is held under a key twice with the same payload is replacing it once. -/
theorem Store.map_replace_idem (s : Store) (domain id : String) (c : Creds) :
    (s.map (fun r => if Store.hasKey domain id r then (domain, id, c) else r)).map
        (fun r => if Store.hasKey domain id r then (domain, id, c) else r)
      = s.map (fun r => if Store.hasKey domain id r then (domain, id, c) else r) := by
  rw [List.map_map]
  apply List.map_congr_left
  intro r _
  simp only [Function.comp_apply]
  rw [Store.hasKey_replace]
  by_cases h : Store.hasKey domain id r = true
  · simp only [h, if_true]
  · rw [if_neg h, if_neg h]

/-- Update on the keyed store, run a second time on the store it left, changes nothing
more and answers the same. -/
theorem storeManager_update_twice (domain id : String) (c : Creds) (s : Store) :
    storeManager.Update domain id c (storeManager.Update domain id c s).2
      = storeManager.Update domain id c s := by
  simp only [storeManager]
  cases h : Store.lookup s domain id with
  | none => simp [h]
  | some c0 =>
    simp only [h]
    rw [Store.lookup_map_replace, h]
    simp only [Option.map_some']
    rw [Store.map_replace_idem]

/-- A key that holds no record holds none after other entries are removed. -/
theorem Store.lookup_filter_none (s : Store) (domain id : String)
    (p : String × String × Creds → Bool) (h : Store.lookup s domain id = none) :
    Store.lookup (s.filter p) domain id = none := by
  simp only [Store.lookup, Option.map_eq_none', List.find?_eq_none] at h ⊢
  intro r hr
  exact h r (List.mem_of_mem_filter hr)

/-- Delete on the keyed store leaves a key that held no record without one. -/
theorem storeManager_delete_keeps_absent (domain id key : String) (s : Store)
    (h : Store.lookup s "_" key = none) :
    Store.lookup (storeManager.Delete domain id s).2 "_" key = none := by
  simp only [storeManager]
  cases Store.lookup s domain id with
  | none => exact h
  | some c => exact Store.lookup_filter_none s "_" key _ h

/-! ### Contracts of the five operations -/

/-- Claim C1. For both credential kinds, every resource data and every store: Delete
makes exactly one store call, `Delete "_" id` with the identifier held before the call;
afterwards the identifier is the empty string and the value returned is the result of
that call, be it nil or an error. -/
theorem delete_calls_store_once_clears_id {σ : Type} (cm : CredentialsManager σ) (s : σ)
    (d : CredentialResourceData) (ds : CredentialSecretResourceData)
    (outcome : List Call → Call → Option GoError) (fetched : List Call → Call → Creds)
    (log : List Call) :
    ((resourceJenkinsCredentialDelete cm d s).1 = (cm.Delete "_" d.Id s).1
      ∧ (resourceJenkinsCredentialDelete cm d s).2.1.Id = ""
      ∧ (resourceJenkinsCredentialDelete cm d s).2.2 = (cm.Delete "_" d.Id s).2
      ∧ (resourceJenkinsCredentialDelete (recordingManager outcome fetched) d log).2.2
          = log ++ [Call.Delete "_" d.Id]
      ∧ (resourceJenkinsCredentialDelete (recordingManager outcome fetched) d log).1
          = outcome log (Call.Delete "_" d.Id))
    ∧ ((resourceJenkinsCredentialSecretDelete cm ds s).1 = (cm.Delete "_" ds.Id s).1
      ∧ (resourceJenkinsCredentialSecretDelete cm ds s).2.1.Id = ""
      ∧ (resourceJenkinsCredentialSecretDelete cm ds s).2.2 = (cm.Delete "_" ds.Id s).2
      ∧ (resourceJenkinsCredentialSecretDelete (recordingManager outcome fetched) ds log).2.2
          = log ++ [Call.Delete "_" ds.Id]
      ∧ (resourceJenkinsCredentialSecretDelete (recordingManager outcome fetched) ds log).1
          = outcome log (Call.Delete "_" ds.Id)) :=
  ⟨⟨rfl, rfl, rfl, rfl, rfl⟩, ⟨rfl, rfl, rfl, rfl, rfl⟩⟩

/-- Claim C2. For both credential kinds, every resource data and every store: Exists
never returns an error; it makes exactly one store call, `GetSingle "_" id`, and returns
true exactly when that call succeeds; when the call fails, with whatever error, it returns
false and the identifier becomes the empty string; when the call succeeds the resource data
is what it was before. -/
theorem exists_never_errors_and_follows_lookup {σ : Type} (cm : CredentialsManager σ) (s : σ)
    (d : CredentialResourceData) (ds : CredentialSecretResourceData)
    (outcome : List Call → Call → Option GoError) (fetched : List Call → Call → Creds)
    (log : List Call) :
    ((resourceJenkinsCredentialExists cm d s).1.2 = none
      ∧ ((resourceJenkinsCredentialExists cm d s).1.1 = true ↔
          (cm.GetSingle "_" d.Id
            (Creds.username { ID := d.Id, Scope := "GLOBAL", Username := d.username }) s).1.1
            = none)
      ∧ (∀ e : GoError,
          (cm.GetSingle "_" d.Id
            (Creds.username { ID := d.Id, Scope := "GLOBAL", Username := d.username }) s).1.1
            = some e →
          (resourceJenkinsCredentialExists cm d s).1 = (false, none)
            ∧ (resourceJenkinsCredentialExists cm d s).2.1.Id = ""
            ∧ (resourceJenkinsCredentialExists cm d s).2.1 = d.SetId "")
      ∧ ((cm.GetSingle "_" d.Id
            (Creds.username { ID := d.Id, Scope := "GLOBAL", Username := d.username }) s).1.1
            = none →
          (resourceJenkinsCredentialExists cm d s).1 = (true, none)
            ∧ (resourceJenkinsCredentialExists cm d s).2.1 = d)
      ∧ (resourceJenkinsCredentialExists cm d s).2.2
          = (cm.GetSingle "_" d.Id
              (Creds.username { ID := d.Id, Scope := "GLOBAL", Username := d.username }) s).2
      ∧ (resourceJenkinsCredentialExists (recordingManager outcome fetched) d log).2.2
          = log ++ [Call.GetSingle "_" d.Id
              (Creds.username { ID := d.Id, Scope := "GLOBAL", Username := d.username })])
    ∧ ((resourceJenkinsCredentialSecretExists cm ds s).1.2 = none
      ∧ ((resourceJenkinsCredentialSecretExists cm ds s).1.1 = true ↔
          (cm.GetSingle "_" ds.Id
            (Creds.string { ID := ds.Id, Scope := "GLOBAL", Secret := ds.secret,
                            Description := ds.description }) s).1.1
            = none)
      ∧ (∀ e : GoError,
          (cm.GetSingle "_" ds.Id
            (Creds.string { ID := ds.Id, Scope := "GLOBAL", Secret := ds.secret,
                            Description := ds.description }) s).1.1
            = some e →
          (resourceJenkinsCredentialSecretExists cm ds s).1 = (false, none)
            ∧ (resourceJenkinsCredentialSecretExists cm ds s).2.1.Id = ""
            ∧ (resourceJenkinsCredentialSecretExists cm ds s).2.1 = ds.SetId "")
      ∧ ((cm.GetSingle "_" ds.Id
            (Creds.string { ID := ds.Id, Scope := "GLOBAL", Secret := ds.secret,
                            Description := ds.description }) s).1.1
            = none →
          (resourceJenkinsCredentialSecretExists cm ds s).1 = (true, none)
            ∧ (resourceJenkinsCredentialSecretExists cm ds s).2.1 = ds)
      ∧ (resourceJenkinsCredentialSecretExists cm ds s).2.2
          = (cm.GetSingle "_" ds.Id
              (Creds.string { ID := ds.Id, Scope := "GLOBAL", Secret := ds.secret,
                              Description := ds.description }) s).2
      ∧ (resourceJenkinsCredentialSecretExists (recordingManager outcome fetched) ds log).2.2
          = log ++ [Call.GetSingle "_" ds.Id
              (Creds.string { ID := ds.Id, Scope := "GLOBAL", Secret := ds.secret,
                              Description := ds.description })]) := by
  refine ⟨⟨?_, ?_, ?_, ?_, ?_, ?_⟩, ⟨?_, ?_, ?_, ?_, ?_, ?_⟩⟩
  · rw [credentialExists_eq]
  · rw [credentialExists_eq]; exact Option.isNone_iff_eq_none
  · intro e h; rw [credentialExists_eq, h]; exact ⟨rfl, rfl, rfl⟩
  · intro h; rw [credentialExists_eq, h]; exact ⟨rfl, rfl⟩
  · rw [credentialExists_eq]
  · rw [credentialExists_eq]; rfl
  · rw [credentialSecretExists_eq]
  · rw [credentialSecretExists_eq]; exact Option.isNone_iff_eq_none
  · intro e h; rw [credentialSecretExists_eq, h]; exact ⟨rfl, rfl, rfl⟩
  · intro h; rw [credentialSecretExists_eq, h]; exact ⟨rfl, rfl⟩
  · rw [credentialSecretExists_eq]
  · rw [credentialSecretExists_eq]; rfl

/-- The contract of Exists applied to the sample data: over an empty keyed store the lookup
of `"u1"` fails, Exists answers false without an error and the identifier is emptied; over
the sample store the lookup of `"t1"` succeeds, Exists answers true and the resource data
is untouched. -/
theorem exists_never_errors_and_follows_lookup_witness :
    ((resourceJenkinsCredentialExists storeManager aliceCreated []).1 = (false, none)
      ∧ (resourceJenkinsCredentialExists storeManager aliceCreated []).2.1.Id = ""
      ∧ (resourceJenkinsCredentialExists storeManager aliceCreated []).2.1
        = aliceCreated.SetId "")
    ∧ ((resourceJenkinsCredentialSecretExists storeManager tokenCreated sampleStore).1
        = (true, none)
      ∧ (resourceJenkinsCredentialSecretExists storeManager tokenCreated sampleStore).2.1
        = tokenCreated) :=
  ⟨(exists_never_errors_and_follows_lookup storeManager [] aliceCreated tokenCreated
      (fun _ _ => none) (fun _ _ => Creds.string {}) []).1.2.2.1 notFound rfl,
   (exists_never_errors_and_follows_lookup storeManager sampleStore aliceCreated tokenCreated
      (fun _ _ => none) (fun _ _ => Creds.string {}) []).2.2.2.2.1 rfl⟩

/-- Claim C3. For both credential kinds, every resource data, every value `newV4` returned
by the identifier generator (g is the string form of its first component) and every store:
Create makes exactly one store call, `Add "_" payload`, where the payload has ID g, Scope
"GLOBAL" and the declared fields; when the call fails Create returns that error and leaves
the resource data, identifier included, as it was; when the call succeeds Create returns
nil and the resource data is the former one with identifier g. -/
theorem create_adds_once_and_sets_id_on_success {σ : Type} (cm : CredentialsManager σ) (s : σ)
    (newV4 : UUID × Option GoError)
    (d : CredentialResourceData) (ds : CredentialSecretResourceData)
    (outcome : List Call → Call → Option GoError) (fetched : List Call → Call → Creds)
    (log : List Call) :
    ((resourceJenkinsCredentialCreate (recordingManager outcome fetched) newV4 d log).2.2
          = log ++ [Call.Add "_"
              (Creds.username { ID := newV4.1.String, Scope := "GLOBAL", Username := d.username,
                                Password := d.password, Description := d.description })]
      ∧ (resourceJenkinsCredentialCreate cm newV4 d s).2.2
          = (cm.Add "_"
              (Creds.username { ID := newV4.1.String, Scope := "GLOBAL", Username := d.username,
                                Password := d.password, Description := d.description }) s).2
      ∧ (∀ e : GoError,
          (cm.Add "_"
              (Creds.username { ID := newV4.1.String, Scope := "GLOBAL", Username := d.username,
                                Password := d.password, Description := d.description }) s).1
            = some e →
          (resourceJenkinsCredentialCreate cm newV4 d s).1 = some e
            ∧ (resourceJenkinsCredentialCreate cm newV4 d s).2.1 = d)
      ∧ ((cm.Add "_"
              (Creds.username { ID := newV4.1.String, Scope := "GLOBAL", Username := d.username,
                                Password := d.password, Description := d.description }) s).1
            = none →
          (resourceJenkinsCredentialCreate cm newV4 d s).1 = none
            ∧ (resourceJenkinsCredentialCreate cm newV4 d s).2.1.Id = newV4.1.String
            ∧ (resourceJenkinsCredentialCreate cm newV4 d s).2.1 = d.SetId newV4.1.String))
    ∧ ((resourceJenkinsCredentialSecretCreate (recordingManager outcome fetched) newV4 ds log).2.2
          = log ++ [Call.Add "_"
              (Creds.string { ID := newV4.1.String, Scope := "GLOBAL", Secret := ds.secret,
                              Description := ds.description })]
      ∧ (resourceJenkinsCredentialSecretCreate cm newV4 ds s).2.2
          = (cm.Add "_"
              (Creds.string { ID := newV4.1.String, Scope := "GLOBAL", Secret := ds.secret,
                              Description := ds.description }) s).2
      ∧ (∀ e : GoError,
          (cm.Add "_"
              (Creds.string { ID := newV4.1.String, Scope := "GLOBAL", Secret := ds.secret,
                              Description := ds.description }) s).1
            = some e →
          (resourceJenkinsCredentialSecretCreate cm newV4 ds s).1 = some e
            ∧ (resourceJenkinsCredentialSecretCreate cm newV4 ds s).2.1 = ds)
      ∧ ((cm.Add "_"
              (Creds.string { ID := newV4.1.String, Scope := "GLOBAL", Secret := ds.secret,
                              Description := ds.description }) s).1
            = none →
          (resourceJenkinsCredentialSecretCreate cm newV4 ds s).1 = none
            ∧ (resourceJenkinsCredentialSecretCreate cm newV4 ds s).2.1.Id = newV4.1.String
            ∧ (resourceJenkinsCredentialSecretCreate cm newV4 ds s).2.1
                = ds.SetId newV4.1.String)) := by
  refine ⟨⟨?_, ?_, ?_, ?_⟩, ⟨?_, ?_, ?_, ?_⟩⟩
  · rw [credentialCreate_eq]; rfl
  · rw [credentialCreate_eq]
  · intro e h; rw [credentialCreate_eq, h]; exact ⟨rfl, rfl⟩
  · intro h; rw [credentialCreate_eq, h]; exact ⟨rfl, rfl, rfl⟩
  · rw [credentialSecretCreate_eq]; rfl
  · rw [credentialSecretCreate_eq]
  · intro e h; rw [credentialSecretCreate_eq, h]; exact ⟨rfl, rfl⟩
  · intro h; rw [credentialSecretCreate_eq, h]; exact ⟨rfl, rfl, rfl⟩

/-- The contract of Create applied to the sample data: over a store whose add call fails the
error comes back and the resource data is untouched; over the keyed store, whose add call
succeeds, the identifier is the string form of the generated UUID. -/
theorem create_adds_once_and_sets_id_on_success_witness :
    ((resourceJenkinsCredentialCreate (recordingManager (fun _ _ => some storeFailure)
          (fun _ _ => Creds.string {})) (sampleUUID, none) aliceData []).1 = some storeFailure
      ∧ (resourceJenkinsCredentialCreate (recordingManager (fun _ _ => some storeFailure)
          (fun _ _ => Creds.string {})) (sampleUUID, none) aliceData []).2.1 = aliceData)
    ∧ ((resourceJenkinsCredentialSecretCreate storeManager (sampleUUID, none) tokenData []).1
          = none
      ∧ (resourceJenkinsCredentialSecretCreate storeManager (sampleUUID, none) tokenData []).2.1.Id
          = sampleUUID.String
      ∧ (resourceJenkinsCredentialSecretCreate storeManager (sampleUUID, none) tokenData []).2.1
          = tokenData.SetId sampleUUID.String) :=
  ⟨(create_adds_once_and_sets_id_on_success
      (recordingManager (fun _ _ => some storeFailure) (fun _ _ => Creds.string {})) []
      (sampleUUID, none) aliceData tokenData (fun _ _ => none) (fun _ _ => Creds.string {})
      []).1.2.2.1 storeFailure rfl,
   (create_adds_once_and_sets_id_on_success storeManager [] (sampleUUID, none) aliceData
      tokenData (fun _ _ => none) (fun _ _ => Creds.string {}) []).2.2.2.2 rfl⟩

/-- Claim C4. For both credential kinds, every resource data and every store: Read makes
exactly one store call, `GetSingle "_" id`, returns exactly the result of that call (nil or
the same error), and in both cases leaves the resource data, identifier and every declared
field, equal to what it was before, whatever record the store handed back. -/
theorem read_returns_lookup_result_and_keeps_state {σ : Type} (cm : CredentialsManager σ)
    (s : σ) (d : CredentialResourceData) (ds : CredentialSecretResourceData)
    (outcome : List Call → Call → Option GoError) (fetched : List Call → Call → Creds)
    (log : List Call) :
    ((resourceJenkinsCredentialRead cm d s).1
          = (cm.GetSingle "_" d.Id
              (Creds.username { ID := d.Id, Scope := "GLOBAL", Username := d.username }) s).1.1
      ∧ (resourceJenkinsCredentialRead cm d s).2.1 = d
      ∧ (resourceJenkinsCredentialRead cm d s).2.2
          = (cm.GetSingle "_" d.Id
              (Creds.username { ID := d.Id, Scope := "GLOBAL", Username := d.username }) s).2
      ∧ (resourceJenkinsCredentialRead (recordingManager outcome fetched) d log).2.2
          = log ++ [Call.GetSingle "_" d.Id
              (Creds.username { ID := d.Id, Scope := "GLOBAL", Username := d.username })]
      ∧ (resourceJenkinsCredentialRead (recordingManager outcome fetched) d log).2.1 = d)
    ∧ ((resourceJenkinsCredentialSecretRead cm ds s).1
          = (cm.GetSingle "_" ds.Id
              (Creds.string { ID := ds.Id, Scope := "GLOBAL", Secret := ds.secret,
                              Description := ds.description }) s).1.1
      ∧ (resourceJenkinsCredentialSecretRead cm ds s).2.1 = ds
      ∧ (resourceJenkinsCredentialSecretRead cm ds s).2.2
          = (cm.GetSingle "_" ds.Id
              (Creds.string { ID := ds.Id, Scope := "GLOBAL", Secret := ds.secret,
                              Description := ds.description }) s).2
      ∧ (resourceJenkinsCredentialSecretRead (recordingManager outcome fetched) ds log).2.2
          = log ++ [Call.GetSingle "_" ds.Id
              (Creds.string { ID := ds.Id, Scope := "GLOBAL", Secret := ds.secret,
                              Description := ds.description })]
      ∧ (resourceJenkinsCredentialSecretRead (recordingManager outcome fetched) ds log).2.1
          = ds) := by
  refine ⟨⟨?_, ?_, ?_, ?_, ?_⟩, ⟨?_, ?_, ?_, ?_, ?_⟩⟩
  · rw [credentialRead_eq]
  · rw [credentialRead_eq]
  · rw [credentialRead_eq]
  · rw [credentialRead_eq]; rfl
  · rw [credentialRead_eq]
  · rw [credentialSecretRead_eq]
  · rw [credentialSecretRead_eq]
  · rw [credentialSecretRead_eq]
  · rw [credentialSecretRead_eq]; rfl
  · rw [credentialSecretRead_eq]

/-- Claim C5. For both credential kinds, every resource data with identifier i and every
store: Update makes exactly one store call, `Update "_" i payload`, where the payload has
ID i, Scope "GLOBAL" and every other field equal to the declared value; it returns exactly
the result of that call and leaves the resource data, so the identifier i, as it was, on
success and on failure. Over the keyed store: after Create with username "alice" and
password "p1", an Update with the password changed to "p2" succeeds and the record held
under the created identifier has password "p2" and username "alice". -/
theorem update_replaces_whole_record {σ : Type} (cm : CredentialsManager σ) (s : σ)
    (d : CredentialResourceData) (ds : CredentialSecretResourceData)
    (outcome : List Call → Call → Option GoError) (fetched : List Call → Call → Creds)
    (log : List Call) (newV4 : UUID × Option GoError) (st : Store) :
    ((resourceJenkinsCredentialUpdate cm d s).1
          = (cm.Update "_" d.Id
              (Creds.username { ID := d.Id, Scope := "GLOBAL", Username := d.username,
                                Password := d.password, Description := d.description }) s).1
      ∧ (resourceJenkinsCredentialUpdate cm d s).2.1 = d
      ∧ (resourceJenkinsCredentialUpdate cm d s).2.1.Id = d.Id
      ∧ (resourceJenkinsCredentialUpdate cm d s).2.2
          = (cm.Update "_" d.Id
              (Creds.username { ID := d.Id, Scope := "GLOBAL", Username := d.username,
                                Password := d.password, Description := d.description }) s).2
      ∧ (resourceJenkinsCredentialUpdate (recordingManager outcome fetched) d log).2.2
          = log ++ [Call.Update "_" d.Id
              (Creds.username { ID := d.Id, Scope := "GLOBAL", Username := d.username,
                                Password := d.password, Description := d.description })])
    ∧ ((resourceJenkinsCredentialSecretUpdate cm ds s).1
          = (cm.Update "_" ds.Id
              (Creds.string { ID := ds.Id, Scope := "GLOBAL", Secret := ds.secret,
                              Description := ds.description }) s).1
      ∧ (resourceJenkinsCredentialSecretUpdate cm ds s).2.1 = ds
      ∧ (resourceJenkinsCredentialSecretUpdate cm ds s).2.1.Id = ds.Id
      ∧ (resourceJenkinsCredentialSecretUpdate cm ds s).2.2
          = (cm.Update "_" ds.Id
              (Creds.string { ID := ds.Id, Scope := "GLOBAL", Secret := ds.secret,
                              Description := ds.description }) s).2
      ∧ (resourceJenkinsCredentialSecretUpdate (recordingManager outcome fetched) ds log).2.2
          = log ++ [Call.Update "_" ds.Id
              (Creds.string { ID := ds.Id, Scope := "GLOBAL", Secret := ds.secret,
                              Description := ds.description })])
    ∧ ((resourceJenkinsCredentialCreate storeManager newV4
          { d with username := "alice", password := "p1" } st).1 = none
      ∧ (resourceJenkinsCredentialUpdate storeManager
          { (resourceJenkinsCredentialCreate storeManager newV4
              { d with username := "alice", password := "p1" } st).2.1 with password := "p2" }
          (resourceJenkinsCredentialCreate storeManager newV4
              { d with username := "alice", password := "p1" } st).2.2).1 = none
      ∧ Store.lookup
          (resourceJenkinsCredentialUpdate storeManager
            { (resourceJenkinsCredentialCreate storeManager newV4
                { d with username := "alice", password := "p1" } st).2.1 with password := "p2" }
            (resourceJenkinsCredentialCreate storeManager newV4
                { d with username := "alice", password := "p1" } st).2.2).2.2
          "_" newV4.1.String
        = some (Creds.username { ID := newV4.1.String, Scope := "GLOBAL", Username := "alice",
                                 Password := "p2", Description := d.description })) := by
  refine ⟨⟨?_, ?_, ?_, ?_, ?_⟩, ⟨?_, ?_, ?_, ?_, ?_⟩, ?_⟩
  · rw [credentialUpdate_eq]
  · rw [credentialUpdate_eq]
  · rw [credentialUpdate_eq]
  · rw [credentialUpdate_eq]
  · rw [credentialUpdate_eq]; rfl
  · rw [credentialSecretUpdate_eq]
  · rw [credentialSecretUpdate_eq]
  · rw [credentialSecretUpdate_eq]
  · rw [credentialSecretUpdate_eq]
  · rw [credentialSecretUpdate_eq]; rfl
  · have hc : resourceJenkinsCredentialCreate storeManager newV4
          { d with username := "alice", password := "p1" } st
        = (none, { d with username := "alice", password := "p1", Id := newV4.1.String },
            ("_", newV4.1.String,
              Creds.username { ID := newV4.1.String, Scope := "GLOBAL", Username := "alice",
                               Password := "p1", Description := d.description }) :: st) := rfl
    rw [hc, credentialUpdate_eq]
    simp only [storeManager, Store.lookup_cons_self]
    refine ⟨trivial, trivial, ?_⟩
    rw [Store.lookup_map_replace, Store.lookup_cons_self]
    rfl

/-! ### The generated identifier -/

/-- The 36 characters of the string form of a UUID. -/
theorem UUID.String_eq (u : UUID) :
    u.String = String.mk
      [hexDigit ((u.bytes 0).val / 16), hexDigit ((u.bytes 0).val % 16),
       hexDigit ((u.bytes 1).val / 16), hexDigit ((u.bytes 1).val % 16),
       hexDigit ((u.bytes 2).val / 16), hexDigit ((u.bytes 2).val % 16),
       hexDigit ((u.bytes 3).val / 16), hexDigit ((u.bytes 3).val % 16), Char.ofNat 45,
       hexDigit ((u.bytes 4).val / 16), hexDigit ((u.bytes 4).val % 16),
       hexDigit ((u.bytes 5).val / 16), hexDigit ((u.bytes 5).val % 16), Char.ofNat 45,
       hexDigit ((u.bytes 6).val / 16), hexDigit ((u.bytes 6).val % 16),
       hexDigit ((u.bytes 7).val / 16), hexDigit ((u.bytes 7).val % 16), Char.ofNat 45,
       hexDigit ((u.bytes 8).val / 16), hexDigit ((u.bytes 8).val % 16),
       hexDigit ((u.bytes 9).val / 16), hexDigit ((u.bytes 9).val % 16), Char.ofNat 45,
       hexDigit ((u.bytes 10).val / 16), hexDigit ((u.bytes 10).val % 16),
       hexDigit ((u.bytes 11).val / 16), hexDigit ((u.bytes 11).val % 16),
       hexDigit ((u.bytes 12).val / 16), hexDigit ((u.bytes 12).val % 16),
       hexDigit ((u.bytes 13).val / 16), hexDigit ((u.bytes 13).val % 16),
       hexDigit ((u.bytes 14).val / 16), hexDigit ((u.bytes 14).val % 16),
       hexDigit ((u.bytes 15).val / 16), hexDigit ((u.bytes 15).val % 16)] :=
  rfl

/-- The string form of a UUID is never empty: it has 36 characters. -/
theorem UUID.String_length (u : UUID) : u.String.length = 36 := by
  rw [UUID.String_eq]; rfl

/-- The string form of a UUID is not the empty string. -/
theorem UUID.String_ne_empty (u : UUID) : u.String ≠ "" := by
  intro h
  have h1 := congrArg String.length h
  rw [UUID.String_length] at h1
  exact absurd h1 (by decide)

/-- Distinct nibbles have distinct hexadecimal digits. -/
theorem hexDigit_inj : ∀ a b : Fin 16, hexDigit a.val = hexDigit b.val → a = b := by
  decide

/-- Distinct bytes have distinct two-digit hexadecimal forms. -/
theorem hexByte_inj (a b : Fin 256) (hhi : hexDigit (a.val / 16) = hexDigit (b.val / 16))
    (hlo : hexDigit (a.val % 16) = hexDigit (b.val % 16)) : a = b := by
  have h1 := hexDigit_inj ⟨a.val / 16, by omega⟩ ⟨b.val / 16, by omega⟩ hhi
  have h2 := hexDigit_inj ⟨a.val % 16, by omega⟩ ⟨b.val % 16, by omega⟩ hlo
  have h3 : a.val / 16 = b.val / 16 := congrArg Fin.val h1
  have h4 : a.val % 16 = b.val % 16 := congrArg Fin.val h2
  apply Fin.ext
  omega

/-- Distinct UUIDs have distinct string forms. -/
theorem UUID.String_inj (u v : UUID) (h : u.String = v.String) : u = v := by
  rw [UUID.String_eq, UUID.String_eq] at h
  have hl := congrArg String.data h
  simp only [List.cons.injEq, and_true] at hl
  obtain ⟨a0, b0, a1, b1, a2, b2, a3, b3, -, a4, b4, a5, b5, -, a6, b6, a7, b7, -,
    a8, b8, a9, b9, -, a10, b10, a11, b11, a12, b12, a13, b13, a14, b14, a15, b15⟩ := hl
  cases u with
  | mk ub =>
    cases v with
    | mk vb =>
      congr 1
      funext i
      fin_cases i
      · exact hexByte_inj _ _ a0 b0
      · exact hexByte_inj _ _ a1 b1
      · exact hexByte_inj _ _ a2 b2
      · exact hexByte_inj _ _ a3 b3
      · exact hexByte_inj _ _ a4 b4
      · exact hexByte_inj _ _ a5 b5
      · exact hexByte_inj _ _ a6 b6
      · exact hexByte_inj _ _ a7 b7
      · exact hexByte_inj _ _ a8 b8
      · exact hexByte_inj _ _ a9 b9
      · exact hexByte_inj _ _ a10 b10
      · exact hexByte_inj _ _ a11 b11
      · exact hexByte_inj _ _ a12 b12
      · exact hexByte_inj _ _ a13 b13
      · exact hexByte_inj _ _ a14 b14
      · exact hexByte_inj _ _ a15 b15

/-- When the add call succeeds, the identifier Create assigns to a username/password
credential is non-empty, and two Creates assign different identifiers whenever the
generator returned different UUIDs. -/
theorem create_ids_distinct_of_distinct_uuids (g1 g2 : UUID × Option GoError)
    (d1 d2 : CredentialResourceData) (s1 s2 : Store) (hne : g1.1 ≠ g2.1) :
    (resourceJenkinsCredentialCreate storeManager g1 d1 s1).2.1.Id ≠ ""
      ∧ (resourceJenkinsCredentialCreate storeManager g1 d1 s1).2.1.Id
          ≠ (resourceJenkinsCredentialCreate storeManager g2 d2 s2).2.1.Id := by
  have e1 : (resourceJenkinsCredentialCreate storeManager g1 d1 s1).2.1.Id = g1.1.String := rfl
  have e2 : (resourceJenkinsCredentialCreate storeManager g2 d2 s2).2.1.Id = g2.1.String := rfl
  rw [e1, e2]
  exact ⟨UUID.String_ne_empty _, fun h => hne (UUID.String_inj _ _ h)⟩

/-- Claim C6, evaluated where the code departs from it: repeated Creates, of either kind,
during each of which `uuid.NewV4` failed and so returned `uuid.Nil` with an error. The
error is dropped and every Create succeeds on the keyed store and assigns the identifier
`00000000-0000-0000-0000-000000000000`: non-empty, but the same each time, be the second
Create made right after the first or after the first credential was deleted again. -/
theorem create_reuses_id_when_generator_fails :
    ((resourceJenkinsCredentialCreate storeManager (UUID.Nil, some randFailure) aliceData []).1
        = none
      ∧ (resourceJenkinsCredentialCreate storeManager (UUID.Nil, some randFailure)
          aliceData []).2.1.Id = "00000000-0000-0000-0000-000000000000"
      ∧ (resourceJenkinsCredentialCreate storeManager (UUID.Nil, some randFailure)
          { aliceData with username := "bob" }
          (resourceJenkinsCredentialCreate storeManager (UUID.Nil, some randFailure)
            aliceData []).2.2).1 = none
      ∧ (resourceJenkinsCredentialCreate storeManager (UUID.Nil, some randFailure)
          { aliceData with username := "bob" }
          (resourceJenkinsCredentialCreate storeManager (UUID.Nil, some randFailure)
            aliceData []).2.2).2.1.Id = "00000000-0000-0000-0000-000000000000"
      ∧ (resourceJenkinsCredentialCreate storeManager (UUID.Nil, some randFailure)
          { aliceData with username := "bob" }
          (resourceJenkinsCredentialDelete storeManager
            (resourceJenkinsCredentialCreate storeManager (UUID.Nil, some randFailure)
              aliceData []).2.1
            (resourceJenkinsCredentialCreate storeManager (UUID.Nil, some randFailure)
              aliceData []).2.2).2.2).2.1.Id = "00000000-0000-0000-0000-000000000000")
    ∧ ((resourceJenkinsCredentialSecretCreate storeManager (UUID.Nil, some randFailure)
          tokenData []).1 = none
      ∧ (resourceJenkinsCredentialSecretCreate storeManager (UUID.Nil, some randFailure)
          tokenData []).2.1.Id = "00000000-0000-0000-0000-000000000000"
      ∧ (resourceJenkinsCredentialSecretCreate storeManager (UUID.Nil, some randFailure)
          { tokenData with secret := "other" }
          (resourceJenkinsCredentialSecretCreate storeManager (UUID.Nil, some randFailure)
            tokenData []).2.2).1 = none
      ∧ (resourceJenkinsCredentialSecretCreate storeManager (UUID.Nil, some randFailure)
          { tokenData with secret := "other" }
          (resourceJenkinsCredentialSecretCreate storeManager (UUID.Nil, some randFailure)
            tokenData []).2.2).2.1.Id = "00000000-0000-0000-0000-000000000000"
      ∧ (resourceJenkinsCredentialSecretCreate storeManager (UUID.Nil, some randFailure)
          { tokenData with secret := "other" }
          (resourceJenkinsCredentialSecretDelete storeManager
            (resourceJenkinsCredentialSecretCreate storeManager (UUID.Nil, some randFailure)
              tokenData []).2.1
            (resourceJenkinsCredentialSecretCreate storeManager (UUID.Nil, some randFailure)
              tokenData []).2.2).2.2).2.1.Id = "00000000-0000-0000-0000-000000000000") :=
  ⟨⟨rfl, rfl, rfl, rfl, rfl⟩, ⟨rfl, rfl, rfl, rfl, rfl⟩⟩

/-! ### Sequences of operations over the keyed store -/

/-- Claim C7. Over the keyed store, for every resource data of either kind, every store
state and every generated UUID: Create succeeds and assigns the string form of the UUID;
Exists on the resulting resource data and store returns true without an error, Read returns
nil, and after either the identifier is still the one Create assigned. -/
theorem create_then_exists_and_read_succeed (st : Store) (newV4 : UUID × Option GoError)
    (d : CredentialResourceData) (ds : CredentialSecretResourceData) :
    ((resourceJenkinsCredentialCreate storeManager newV4 d st).1 = none
      ∧ (resourceJenkinsCredentialCreate storeManager newV4 d st).2.1.Id = newV4.1.String
      ∧ (resourceJenkinsCredentialExists storeManager
          (resourceJenkinsCredentialCreate storeManager newV4 d st).2.1
          (resourceJenkinsCredentialCreate storeManager newV4 d st).2.2).1 = (true, none)
      ∧ (resourceJenkinsCredentialExists storeManager
          (resourceJenkinsCredentialCreate storeManager newV4 d st).2.1
          (resourceJenkinsCredentialCreate storeManager newV4 d st).2.2).2.1.Id
          = newV4.1.String
      ∧ (resourceJenkinsCredentialRead storeManager
          (resourceJenkinsCredentialCreate storeManager newV4 d st).2.1
          (resourceJenkinsCredentialCreate storeManager newV4 d st).2.2).1 = none
      ∧ (resourceJenkinsCredentialRead storeManager
          (resourceJenkinsCredentialCreate storeManager newV4 d st).2.1
          (resourceJenkinsCredentialCreate storeManager newV4 d st).2.2).2.1.Id
          = newV4.1.String)
    ∧ ((resourceJenkinsCredentialSecretCreate storeManager newV4 ds st).1 = none
      ∧ (resourceJenkinsCredentialSecretCreate storeManager newV4 ds st).2.1.Id
          = newV4.1.String
      ∧ (resourceJenkinsCredentialSecretExists storeManager
          (resourceJenkinsCredentialSecretCreate storeManager newV4 ds st).2.1
          (resourceJenkinsCredentialSecretCreate storeManager newV4 ds st).2.2).1 = (true, none)
      ∧ (resourceJenkinsCredentialSecretExists storeManager
          (resourceJenkinsCredentialSecretCreate storeManager newV4 ds st).2.1
          (resourceJenkinsCredentialSecretCreate storeManager newV4 ds st).2.2).2.1.Id
          = newV4.1.String
      ∧ (resourceJenkinsCredentialSecretRead storeManager
          (resourceJenkinsCredentialSecretCreate storeManager newV4 ds st).2.1
          (resourceJenkinsCredentialSecretCreate storeManager newV4 ds st).2.2).1 = none
      ∧ (resourceJenkinsCredentialSecretRead storeManager
          (resourceJenkinsCredentialSecretCreate storeManager newV4 ds st).2.1
          (resourceJenkinsCredentialSecretCreate storeManager newV4 ds st).2.2).2.1.Id
          = newV4.1.String) := by
  have hc : resourceJenkinsCredentialCreate storeManager newV4 d st
      = (none, d.SetId newV4.1.String,
          ("_", newV4.1.String,
            Creds.username { ID := newV4.1.String, Scope := "GLOBAL", Username := d.username,
                             Password := d.password, Description := d.description }) :: st) :=
    rfl
  have hs : resourceJenkinsCredentialSecretCreate storeManager newV4 ds st
      = (none, ds.SetId newV4.1.String,
          ("_", newV4.1.String,
            Creds.string { ID := newV4.1.String, Scope := "GLOBAL", Secret := ds.secret,
                           Description := ds.description }) :: st) :=
    rfl
  rw [hc, hs]
  refine ⟨⟨rfl, rfl, ?_, ?_, ?_, ?_⟩, ⟨rfl, rfl, ?_, ?_, ?_, ?_⟩⟩
  · rw [credentialExists_eq]
    simp only [storeManager, CredentialResourceData.SetId, Store.lookup_cons_self]
    rfl
  · rw [credentialExists_eq]
    simp only [storeManager, CredentialResourceData.SetId, Store.lookup_cons_self]
    rfl
  · rw [credentialRead_eq]
    simp only [storeManager, CredentialResourceData.SetId, Store.lookup_cons_self]
  · rw [credentialRead_eq]; rfl
  · rw [credentialSecretExists_eq]
    simp only [storeManager, CredentialSecretResourceData.SetId, Store.lookup_cons_self]
    rfl
  · rw [credentialSecretExists_eq]
    simp only [storeManager, CredentialSecretResourceData.SetId, Store.lookup_cons_self]
    rfl
  · rw [credentialSecretRead_eq]
    simp only [storeManager, CredentialSecretResourceData.SetId, Store.lookup_cons_self]
  · rw [credentialSecretRead_eq]; rfl

/-- Claim C9. Over the keyed store, for every resource data of either kind and every store
state: running Update a second time, on the resource data and the store the first run left,
gives the same returned value, the same resource data and the same store as the first run. -/
theorem update_twice_same_as_once (st : Store) (d : CredentialResourceData)
    (ds : CredentialSecretResourceData) :
    resourceJenkinsCredentialUpdate storeManager
        (resourceJenkinsCredentialUpdate storeManager d st).2.1
        (resourceJenkinsCredentialUpdate storeManager d st).2.2
      = resourceJenkinsCredentialUpdate storeManager d st
    ∧ resourceJenkinsCredentialSecretUpdate storeManager
        (resourceJenkinsCredentialSecretUpdate storeManager ds st).2.1
        (resourceJenkinsCredentialSecretUpdate storeManager ds st).2.2
      = resourceJenkinsCredentialSecretUpdate storeManager ds st := by
  constructor
  · rw [credentialUpdate_eq storeManager d st]
    simp only
    rw [credentialUpdate_eq, storeManager_update_twice]
  · rw [credentialSecretUpdate_eq storeManager ds st]
    simp only
    rw [credentialSecretUpdate_eq, storeManager_update_twice]

/-- A record put under another identifier does not appear under the key looked up. -/
theorem Store.lookup_cons_of_ne (s : Store) (domain id key : String) (c : Creds)
    (hne : id ≠ key) :
    Store.lookup ((domain, id, c) :: s) "_" key = Store.lookup s "_" key := by
  have hk : Store.hasKey "_" key (domain, id, c) = false := by
    simp [Store.hasKey, hne]
  simp only [Store.lookup, List.find?_cons, hk]

/-- Replacing what is held under one key leaves a key that held no record without one. -/
theorem Store.lookup_map_replace_none (s : Store) (domain id other key : String) (c : Creds)
    (h : Store.lookup s other key = none) :
    Store.lookup (s.map (fun r => if Store.hasKey domain id r then (domain, id, c) else r))
      other key = none := by
  simp only [Store.lookup, Option.map_eq_none', List.find?_eq_none, List.mem_map] at h ⊢
  rintro r ⟨r0, hr0, rfl⟩
  have h0 := h r0 hr0
  by_cases hk : Store.hasKey domain id r0 = true
  · rw [if_pos hk]
    intro hnew
    apply h0
    simp only [Store.hasKey, Bool.and_eq_true, beq_iff_eq] at hk hnew ⊢
    exact ⟨hk.1.trans hnew.1, hk.2.trans hnew.2⟩
  · rw [if_neg hk]
    exact h0

/-- No handler puts a record under the empty identifier: over the keyed store, if the key
`("_", "")` holds no record before an operation of either kind, it holds none after it.
Create stores under the 36-character string form of a UUID, Update only replaces what a key
already holds, Delete only removes, Exists and Read change nothing. -/
theorem handlers_keep_empty_id_absent (st : Store) (newV4 : UUID × Option GoError)
    (d : CredentialResourceData) (ds : CredentialSecretResourceData)
    (h : Store.lookup st "_" "" = none) :
    (Store.lookup (resourceJenkinsCredentialCreate storeManager newV4 d st).2.2 "_" "" = none
      ∧ Store.lookup (resourceJenkinsCredentialUpdate storeManager d st).2.2 "_" "" = none
      ∧ Store.lookup (resourceJenkinsCredentialDelete storeManager d st).2.2 "_" "" = none
      ∧ Store.lookup (resourceJenkinsCredentialExists storeManager d st).2.2 "_" "" = none
      ∧ Store.lookup (resourceJenkinsCredentialRead storeManager d st).2.2 "_" "" = none)
    ∧ (Store.lookup (resourceJenkinsCredentialSecretCreate storeManager newV4 ds st).2.2 "_" ""
          = none
      ∧ Store.lookup (resourceJenkinsCredentialSecretUpdate storeManager ds st).2.2 "_" ""
          = none
      ∧ Store.lookup (resourceJenkinsCredentialSecretDelete storeManager ds st).2.2 "_" ""
          = none
      ∧ Store.lookup (resourceJenkinsCredentialSecretExists storeManager ds st).2.2 "_" ""
          = none
      ∧ Store.lookup (resourceJenkinsCredentialSecretRead storeManager ds st).2.2 "_" ""
          = none) := by
  have hupd : ∀ (id : String) (c : Creds),
      Store.lookup (storeManager.Update "_" id c st).2 "_" "" = none := by
    intro id c
    simp only [storeManager]
    cases Store.lookup st "_" id with
    | none => exact h
    | some c0 => exact Store.lookup_map_replace_none st "_" id "_" "" c h
  have hget : ∀ (id : String) (c : Creds), (storeManager.GetSingle "_" id c st).2 = st := by
    intro id c
    simp only [storeManager]
    cases Store.lookup st "_" id <;> rfl
  refine ⟨⟨?_, ?_, ?_, ?_, ?_⟩, ⟨?_, ?_, ?_, ?_, ?_⟩⟩
  · rw [credentialCreate_eq]
    exact (Store.lookup_cons_of_ne st "_" _ "" _ (UUID.String_ne_empty _)).trans h
  · rw [credentialUpdate_eq]; exact hupd _ _
  · exact storeManager_delete_keeps_absent "_" d.Id "" st h
  · rw [credentialExists_eq, hget]; exact h
  · rw [credentialRead_eq, hget]; exact h
  · rw [credentialSecretCreate_eq]
    exact (Store.lookup_cons_of_ne st "_" _ "" _ (UUID.String_ne_empty _)).trans h
  · rw [credentialSecretUpdate_eq]; exact hupd _ _
  · exact storeManager_delete_keeps_absent "_" ds.Id "" st h
  · rw [credentialSecretExists_eq, hget]; exact h
  · rw [credentialSecretRead_eq, hget]; exact h

/-- Claim C8. For both credential kinds and every resource data: Delete followed by Exists
on the resource data and store Delete left returns no error and leaves the identifier
empty, for any store; and over the keyed store with no record under the empty identifier
(the handlers never put one there) it returns false, both when the delete call works and
when the delete call fails with an error and removes nothing, so that the record of the
deleted credential is still held. -/
theorem delete_then_exists_returns_false {σ : Type} (cm : CredentialsManager σ)
    (s : σ) (d : CredentialResourceData) (ds : CredentialSecretResourceData) (st : Store)
    (failure : GoError) (h : Store.lookup st "_" "" = none) :
    ((resourceJenkinsCredentialExists cm (resourceJenkinsCredentialDelete cm d s).2.1
          (resourceJenkinsCredentialDelete cm d s).2.2).1.2 = none
      ∧ (resourceJenkinsCredentialExists cm (resourceJenkinsCredentialDelete cm d s).2.1
          (resourceJenkinsCredentialDelete cm d s).2.2).2.1.Id = ""
      ∧ (resourceJenkinsCredentialSecretExists cm
          (resourceJenkinsCredentialSecretDelete cm ds s).2.1
          (resourceJenkinsCredentialSecretDelete cm ds s).2.2).1.2 = none
      ∧ (resourceJenkinsCredentialSecretExists cm
          (resourceJenkinsCredentialSecretDelete cm ds s).2.1
          (resourceJenkinsCredentialSecretDelete cm ds s).2.2).2.1.Id = "")
    ∧ ((resourceJenkinsCredentialExists storeManager
            (resourceJenkinsCredentialDelete storeManager d st).2.1
            (resourceJenkinsCredentialDelete storeManager d st).2.2).1 = (false, none)
        ∧ (resourceJenkinsCredentialSecretExists storeManager
            (resourceJenkinsCredentialSecretDelete storeManager ds st).2.1
            (resourceJenkinsCredentialSecretDelete storeManager ds st).2.2).1 = (false, none))
    ∧ ((resourceJenkinsCredentialDelete (storeManagerDeleteFailing failure) d st).1
            = some failure
        ∧ (resourceJenkinsCredentialDelete (storeManagerDeleteFailing failure) d st).2.2 = st
        ∧ (resourceJenkinsCredentialExists (storeManagerDeleteFailing failure)
            (resourceJenkinsCredentialDelete (storeManagerDeleteFailing failure) d st).2.1
            (resourceJenkinsCredentialDelete (storeManagerDeleteFailing failure) d st).2.2).1
            = (false, none)
        ∧ (resourceJenkinsCredentialSecretDelete (storeManagerDeleteFailing failure) ds st).1
            = some failure
        ∧ (resourceJenkinsCredentialSecretDelete (storeManagerDeleteFailing failure) ds st).2.2
            = st
        ∧ (resourceJenkinsCredentialSecretExists (storeManagerDeleteFailing failure)
            (resourceJenkinsCredentialSecretDelete (storeManagerDeleteFailing failure) ds st).2.1
            (resourceJenkinsCredentialSecretDelete (storeManagerDeleteFailing failure) ds st).2.2).1
            = (false, none)) := by
  have hd : ∀ {τ : Type} (m : CredentialsManager τ) (t : τ),
      resourceJenkinsCredentialDelete m d t
        = ((m.Delete "_" d.Id t).1, d.SetId "", (m.Delete "_" d.Id t).2) := fun _ _ => rfl
  have hds : ∀ {τ : Type} (m : CredentialsManager τ) (t : τ),
      resourceJenkinsCredentialSecretDelete m ds t
        = ((m.Delete "_" ds.Id t).1, ds.SetId "", (m.Delete "_" ds.Id t).2) := fun _ _ => rfl
  have h1 := storeManager_delete_keeps_absent "_" d.Id "" st h
  have h2 := storeManager_delete_keeps_absent "_" ds.Id "" st h
  refine ⟨⟨?_, ?_, ?_, ?_⟩, ⟨?_, ?_⟩, ⟨rfl, rfl, ?_, rfl, rfl, ?_⟩⟩
  · rw [credentialExists_eq]
  · rw [credentialExists_eq, hd]
    simp only
    split <;> rfl
  · rw [credentialSecretExists_eq]
  · rw [credentialSecretExists_eq, hds]
    simp only
    split <;> rfl
  · rw [credentialExists_eq, hd]
    simp only [CredentialResourceData.SetId]
    simp only [storeManager] at h1 ⊢
    rw [h1]
    rfl
  · rw [credentialSecretExists_eq, hds]
    simp only [CredentialSecretResourceData.SetId]
    simp only [storeManager] at h2 ⊢
    rw [h2]
    rfl
  · rw [credentialExists_eq, hd]
    simp only [CredentialResourceData.SetId, storeManagerDeleteFailing, storeManager]
    rw [h]
    rfl
  · rw [credentialSecretExists_eq, hds]
    simp only [CredentialSecretResourceData.SetId, storeManagerDeleteFailing, storeManager]
    rw [h]
    rfl

/-- Claim C8 on a store the handlers built: Create of the sample username/password
credential on the empty keyed store, then a Delete whose store call fails and removes
nothing, then Exists. The store holds no record under the empty identifier, Delete returns
the error and empties the identifier, the record is still held under the created
identifier, and Exists returns false without an error. -/
theorem delete_then_exists_returns_false_witness :
    Store.lookup (resourceJenkinsCredentialCreate storeManager (sampleUUID, none) aliceData
        []).2.2 "_" "" = none
    ∧ Store.lookup (resourceJenkinsCredentialCreate storeManager (sampleUUID, none) aliceData
        []).2.2 "_" "00112233-4455-4677-8899-aabbccddeeff"
        = some (Creds.username { ID := "00112233-4455-4677-8899-aabbccddeeff",
                                 Scope := "GLOBAL", Username := "alice", Password := "p1",
                                 Description := "ci user" })
    ∧ (resourceJenkinsCredentialDelete (storeManagerDeleteFailing storeFailure)
        (resourceJenkinsCredentialCreate storeManager (sampleUUID, none) aliceData []).2.1
        (resourceJenkinsCredentialCreate storeManager (sampleUUID, none) aliceData []).2.2).1
        = some storeFailure
    ∧ (resourceJenkinsCredentialDelete (storeManagerDeleteFailing storeFailure)
        (resourceJenkinsCredentialCreate storeManager (sampleUUID, none) aliceData []).2.1
        (resourceJenkinsCredentialCreate storeManager (sampleUUID, none) aliceData []).2.2).2.2
        = (resourceJenkinsCredentialCreate storeManager (sampleUUID, none) aliceData []).2.2
    ∧ (resourceJenkinsCredentialExists (storeManagerDeleteFailing storeFailure)
        (resourceJenkinsCredentialDelete (storeManagerDeleteFailing storeFailure)
          (resourceJenkinsCredentialCreate storeManager (sampleUUID, none) aliceData []).2.1
          (resourceJenkinsCredentialCreate storeManager (sampleUUID, none) aliceData
            []).2.2).2.1
        (resourceJenkinsCredentialDelete (storeManagerDeleteFailing storeFailure)
          (resourceJenkinsCredentialCreate storeManager (sampleUUID, none) aliceData []).2.1
          (resourceJenkinsCredentialCreate storeManager (sampleUUID, none) aliceData
            []).2.2).2.2).1 = (false, none) :=
  ⟨rfl, rfl,
   (delete_then_exists_returns_false storeManager []
      (resourceJenkinsCredentialCreate storeManager (sampleUUID, none) aliceData []).2.1
      tokenCreated
      (resourceJenkinsCredentialCreate storeManager (sampleUUID, none) aliceData []).2.2
      storeFailure rfl).2.2.1,
   (delete_then_exists_returns_false storeManager []
      (resourceJenkinsCredentialCreate storeManager (sampleUUID, none) aliceData []).2.1
      tokenCreated
      (resourceJenkinsCredentialCreate storeManager (sampleUUID, none) aliceData []).2.2
      storeFailure rfl).2.2.2.1,
   (delete_then_exists_returns_false storeManager []
      (resourceJenkinsCredentialCreate storeManager (sampleUUID, none) aliceData []).2.1
      tokenCreated
      (resourceJenkinsCredentialCreate storeManager (sampleUUID, none) aliceData []).2.2
      storeFailure rfl).2.2.2.2.1⟩

/-! ### The identifier across the operations -/

/-- Claim C10 fails as stated: Create on resource data that already hold the non-empty
identifier `"u1"` (respectively `"t1"`), over the keyed store, replaces it with the newly
generated one. -/
theorem create_replaces_held_identifier :
    (aliceCreated.Id = "u1"
      ∧ (resourceJenkinsCredentialCreate storeManager (sampleUUID, none) aliceCreated
          sampleStore).1 = none
      ∧ (resourceJenkinsCredentialCreate storeManager (sampleUUID, none) aliceCreated
          sampleStore).2.1.Id = "00112233-4455-4677-8899-aabbccddeeff"
      ∧ (resourceJenkinsCredentialCreate storeManager (sampleUUID, none) aliceCreated
          sampleStore).2.1.Id ≠ aliceCreated.Id)
    ∧ (tokenCreated.Id = "t1"
      ∧ (resourceJenkinsCredentialSecretCreate storeManager (sampleUUID, none) tokenCreated
          sampleStore).1 = none
      ∧ (resourceJenkinsCredentialSecretCreate storeManager (sampleUUID, none) tokenCreated
          sampleStore).2.1.Id = "00112233-4455-4677-8899-aabbccddeeff"
      ∧ (resourceJenkinsCredentialSecretCreate storeManager (sampleUUID, none) tokenCreated
          sampleStore).2.1.Id ≠ tokenCreated.Id) :=
  ⟨⟨rfl, rfl, rfl, by decide⟩, ⟨rfl, rfl, rfl, by decide⟩⟩

/-- Claim C10, amended. For both credential kinds, every resource data, every store and
every generator result: Read, Update, Exists and Delete leave the identifier equal to its
value before the call or empty; Create leaves it as it was when the add call fails and sets
it to the newly generated identifier when the add call succeeds, whatever identifier was
held before; and no operation changes a declared field: putting the former identifier back
gives the former resource data. -/
theorem identifier_and_fields_across_operations {σ : Type} (cm : CredentialsManager σ) (s : σ)
    (newV4 : UUID × Option GoError) (d : CredentialResourceData)
    (ds : CredentialSecretResourceData) :
    ((((resourceJenkinsCredentialRead cm d s).2.1.Id = d.Id
          ∨ (resourceJenkinsCredentialRead cm d s).2.1.Id = "")
        ∧ { (resourceJenkinsCredentialRead cm d s).2.1 with Id := d.Id } = d)
      ∧ (((resourceJenkinsCredentialUpdate cm d s).2.1.Id = d.Id
          ∨ (resourceJenkinsCredentialUpdate cm d s).2.1.Id = "")
        ∧ { (resourceJenkinsCredentialUpdate cm d s).2.1 with Id := d.Id } = d)
      ∧ (((resourceJenkinsCredentialExists cm d s).2.1.Id = d.Id
          ∨ (resourceJenkinsCredentialExists cm d s).2.1.Id = "")
        ∧ { (resourceJenkinsCredentialExists cm d s).2.1 with Id := d.Id } = d)
      ∧ (((resourceJenkinsCredentialDelete cm d s).2.1.Id = d.Id
          ∨ (resourceJenkinsCredentialDelete cm d s).2.1.Id = "")
        ∧ { (resourceJenkinsCredentialDelete cm d s).2.1 with Id := d.Id } = d)
      ∧ ((resourceJenkinsCredentialCreate cm newV4 d s).2.1.Id
          = (if (cm.Add "_"
                  (Creds.username { ID := newV4.1.String, Scope := "GLOBAL",
                                    Username := d.username, Password := d.password,
                                    Description := d.description }) s).1.isNone
              then newV4.1.String else d.Id)
        ∧ { (resourceJenkinsCredentialCreate cm newV4 d s).2.1 with Id := d.Id } = d))
    ∧ ((((resourceJenkinsCredentialSecretRead cm ds s).2.1.Id = ds.Id
          ∨ (resourceJenkinsCredentialSecretRead cm ds s).2.1.Id = "")
        ∧ { (resourceJenkinsCredentialSecretRead cm ds s).2.1 with Id := ds.Id } = ds)
      ∧ (((resourceJenkinsCredentialSecretUpdate cm ds s).2.1.Id = ds.Id
          ∨ (resourceJenkinsCredentialSecretUpdate cm ds s).2.1.Id = "")
        ∧ { (resourceJenkinsCredentialSecretUpdate cm ds s).2.1 with Id := ds.Id } = ds)
      ∧ (((resourceJenkinsCredentialSecretExists cm ds s).2.1.Id = ds.Id
          ∨ (resourceJenkinsCredentialSecretExists cm ds s).2.1.Id = "")
        ∧ { (resourceJenkinsCredentialSecretExists cm ds s).2.1 with Id := ds.Id } = ds)
      ∧ (((resourceJenkinsCredentialSecretDelete cm ds s).2.1.Id = ds.Id
          ∨ (resourceJenkinsCredentialSecretDelete cm ds s).2.1.Id = "")
        ∧ { (resourceJenkinsCredentialSecretDelete cm ds s).2.1 with Id := ds.Id } = ds)
      ∧ ((resourceJenkinsCredentialSecretCreate cm newV4 ds s).2.1.Id
          = (if (cm.Add "_"
                  (Creds.string { ID := newV4.1.String, Scope := "GLOBAL",
                                  Secret := ds.secret, Description := ds.description }) s).1.isNone
              then newV4.1.String else ds.Id)
        ∧ { (resourceJenkinsCredentialSecretCreate cm newV4 ds s).2.1 with Id := ds.Id }
            = ds)) := by
  refine ⟨⟨⟨?_, ?_⟩, ⟨?_, ?_⟩, ⟨?_, ?_⟩, ⟨Or.inr rfl, rfl⟩, ⟨?_, ?_⟩⟩,
    ⟨⟨?_, ?_⟩, ⟨?_, ?_⟩, ⟨?_, ?_⟩, ⟨Or.inr rfl, rfl⟩, ⟨?_, ?_⟩⟩⟩
  · rw [credentialRead_eq]; exact Or.inl rfl
  · rw [credentialRead_eq]
  · rw [credentialUpdate_eq]; exact Or.inl rfl
  · rw [credentialUpdate_eq]
  · rw [credentialExists_eq]; simp only; split
    · exact Or.inl rfl
    · exact Or.inr rfl
  · rw [credentialExists_eq]; simp only; split <;> rfl
  · rw [credentialCreate_eq]; simp only; split <;> rfl
  · rw [credentialCreate_eq]; simp only; split <;> rfl
  · rw [credentialSecretRead_eq]; exact Or.inl rfl
  · rw [credentialSecretRead_eq]
  · rw [credentialSecretUpdate_eq]; exact Or.inl rfl
  · rw [credentialSecretUpdate_eq]
  · rw [credentialSecretExists_eq]; simp only; split
    · exact Or.inl rfl
    · exact Or.inr rfl
  · rw [credentialSecretExists_eq]; simp only; split <;> rfl
  · rw [credentialSecretCreate_eq]; simp only; split <;> rfl
  · rw [credentialSecretCreate_eq]; simp only; split <;> rfl

end Jenkins
